import Mathlib

/-!
# Verification of the request-lifecycle and conversation-state subsystem

Shallow embedding of the core services of the AIDevCompanion backend:

* `RateLimiter` (`app/services/rate_limiter.py`)
* `JobManager` (`app/services/job_manager.py`)
* `ConversationManager` (`app/services/conversation_manager.py`) with the
  domain models of `app/domain/models.py`
* the `/chat` orchestrator (`app/api/chat.py`)

Timestamps (Python `time.time()` / `datetime.now().timestamp()` floats) are
modelled as rationals `ℚ`; Python `int` as `ℤ`.  Dictionaries keyed by
strings are modelled as association lists or as functions `String → Option _`.
External collaborators (the LLM analysis gateway, UUID generation, the
clock) are passed in as explicit parameters so that every operation is a
pure function of its inputs.
-/

/-- Python `int(x)` on a float: truncation toward zero. -/
def pyTrunc (q : ℚ) : ℤ :=
  if q < 0 then ⌈q⌉ else ⌊q⌋

/-! ## RateLimiter (`app/services/rate_limiter.py`)

`RateLimiter.__init__` stores `limit_per_minute` and an empty bucket dict;
`check(ip)` implements the fixed 60-second window.  The bucket dict
`ip ↦ {"count": …, "reset": …}` is modelled as a function
`String → Option RateBucket`. -/

/-- One bucket `{"count": c, "reset": r}` of the rate limiter. -/
structure RateBucket where
  count : ℤ
  reset : ℚ
  deriving DecidableEq, Repr

/-- The `RateLimiter` object: the configured `limit_per_minute` and the
`_buckets` dict. -/
structure RateLimiter where
  limit : ℤ
  buckets : String → Option RateBucket

/-- `self._buckets[ip] = b` (dict assignment for one key). -/
def RateLimiter.setBucket (rl : RateLimiter) (ip : String) (b : RateBucket) : RateLimiter :=
  { rl with buckets := fun k => if k = ip then some b else rl.buckets k }

/-- `RateLimiter.check(ip)` at time `now`.  Returns the `retry_after`
value (`None` = allowed) together with the limiter state after the call.

Mirrors the source: missing bucket → create `{count: 1, reset: now+60}` and
allow; expired window (`now > reset`) → reset to `{1, now+60}` and allow;
`count >= limit` → return `max(1, int(reset - now))` without touching the
bucket; otherwise increment `count` and allow. -/
def RateLimiter.check (rl : RateLimiter) (ip : String) (now : ℚ) : Option ℤ × RateLimiter :=
  let window : ℚ := 60
  match rl.buckets ip with
  | none => (none, rl.setBucket ip ⟨1, now + window⟩)
  | some bucket =>
    if now > bucket.reset then
      (none, rl.setBucket ip ⟨1, now + window⟩)
    else if bucket.count ≥ rl.limit then
      (some (max 1 (pyTrunc (bucket.reset - now))), rl)
    else
      (none, rl.setBucket ip ⟨bucket.count + 1, bucket.reset⟩)

/-- `RateLimiter.reset()`: clear all buckets. -/
def RateLimiter.resetAll (rl : RateLimiter) : RateLimiter :=
  { rl with buckets := fun _ => none }

/-- A sequence of `check` calls for one identifier at the given times,
collecting the returned `retry_after` values. -/
def checkRun (rl : RateLimiter) (ip : String) : List ℚ → List (Option ℤ) × RateLimiter
  | [] => ([], rl)
  | t :: ts =>
    let step := rl.check ip t
    let rest := checkRun step.2 ip ts
    (step.1 :: rest.1, rest.2)

@[simp]
theorem RateLimiter.setBucket_buckets_same (rl : RateLimiter) (ip : String) (b : RateBucket) :
    (rl.setBucket ip b).buckets ip = some b := by
  simp [RateLimiter.setBucket]

@[simp]
theorem RateLimiter.setBucket_limit (rl : RateLimiter) (ip : String) (b : RateBucket) :
    (rl.setBucket ip b).limit = rl.limit := rfl

/-- For a nonnegative difference, Python truncation agrees with the floor. -/
theorem pyTrunc_of_nonneg {q : ℚ} (h : 0 ≤ q) : pyTrunc q = ⌊q⌋ := by
  simp [pyTrunc, not_lt.mpr h]

/-- `check` on a bucket that is inside its window with `count < limit`
allows the call and increments the count, keeping the window end. -/
theorem RateLimiter.check_increments (rl : RateLimiter) (ip : String) (now : ℚ)
    (c : ℤ) (reset : ℚ) (hb : rl.buckets ip = some ⟨c, reset⟩)
    (hwin : now ≤ reset) (hc : c < rl.limit) :
    rl.check ip now = (none, rl.setBucket ip ⟨c + 1, reset⟩) := by
  simp [RateLimiter.check, hb, not_lt.mpr hwin, not_le.mpr hc]

/-- Every call of a run with enough remaining allowance inside the window is
allowed, and the final count is the starting count plus the number of calls. -/
theorem checkRun_all_allowed (ip : String) (reset : ℚ) :
    ∀ (ts : List ℚ) (rl : RateLimiter) (c : ℤ),
      rl.buckets ip = some ⟨c, reset⟩ →
      (∀ t ∈ ts, t ≤ reset) →
      c + ts.length ≤ rl.limit →
      (checkRun rl ip ts).1 = List.replicate ts.length none ∧
      (checkRun rl ip ts).2.buckets ip = some ⟨c + ts.length, reset⟩ ∧
      (checkRun rl ip ts).2.limit = rl.limit := by
  intro ts
  induction ts with
  | nil =>
    intro rl c hb _ _
    exact ⟨rfl, by simpa [checkRun] using hb, rfl⟩
  | cons t ts ih =>
    intro rl c hb hts hcount
    simp only [List.length_cons] at hcount
    have ht : t ≤ reset := hts t (List.mem_cons_self t ts)
    have hlt : c < rl.limit := by
      have h0 : (0 : ℤ) ≤ (ts.length : ℤ) := Int.ofNat_nonneg _
      omega
    have hstep := RateLimiter.check_increments rl ip t c reset hb ht hlt
    have ihres := ih (rl.setBucket ip ⟨c + 1, reset⟩) (c + 1)
      (by simp)
      (fun u hu => hts u (List.mem_cons_of_mem _ hu))
      (by rw [RateLimiter.setBucket_limit]; omega)
    refine ⟨?_, ?_, ?_⟩
    · simp only [checkRun, hstep, List.replicate_succ]
      exact congrArg (List.cons none) ihres.1
    · simp only [checkRun, hstep]
      have : c + 1 + (ts.length : ℤ) = c + ((ts.length : ℤ) + 1) := by ring
      rw [ihres.2.1]
      congr 1
      simp [RateBucket.mk.injEq]
      ring
    · simp only [checkRun, hstep]
      rw [ihres.2.2]
      simp

/-! ### Claim theorems for the rate limiter -/

/-- C4: with a configured limit `N ≥ 1` and a fresh identifier, `N` calls to
`check` inside one 60-second window (starting at the first call `t0`) are all
allowed, and the `(N+1)`th call inside the same window returns a positive
retry-after. -/
theorem rate_limiter_exhausts_after_limit (rl : RateLimiter) (ip : String) (N : ℕ)
    (hN : 1 ≤ N) (hlim : rl.limit = (N : ℤ)) (hfresh : rl.buckets ip = none)
    (t0 : ℚ) (ts : List ℚ) (hlen : ts.length = N - 1)
    (hts : ∀ t ∈ ts, t ≤ t0 + 60) (tlast : ℚ) (hlast : tlast ≤ t0 + 60) :
    ∃ r : ℤ, 0 < r ∧
      (checkRun rl ip (t0 :: (ts ++ [tlast]))).1 =
        List.replicate N (none : Option ℤ) ++ [some r] := by
  have hfirst : rl.check ip t0 = (none, rl.setBucket ip ⟨1, t0 + 60⟩) := by
    simp [RateLimiter.check, hfresh]
  have hrun := checkRun_all_allowed ip (t0 + 60) ts
      (rl.setBucket ip ⟨1, t0 + 60⟩) 1 (by simp) hts
      (by rw [RateLimiter.setBucket_limit, hlim, hlen]; omega)
  obtain ⟨hout, hbucket, hlimit⟩ := hrun
  set rl2 := (checkRun (rl.setBucket ip ⟨1, t0 + 60⟩) ip ts).2 with hrl2
  have hcount : rl2.buckets ip = some ⟨1 + ts.length, t0 + 60⟩ := hbucket
  have hge : (1 + ts.length : ℤ) ≥ rl2.limit := by
    rw [hlimit, RateLimiter.setBucket_limit, hlim, hlen]
    omega
  have hreject : rl2.check ip tlast
      = (some (max 1 (pyTrunc (t0 + 60 - tlast))), rl2) := by
    simp [RateLimiter.check, hcount, not_lt.mpr hlast, hge]
  refine ⟨max 1 (pyTrunc (t0 + 60 - tlast)), le_max_left 1 _, ?_⟩
  have hsplit : ∀ (rlx : RateLimiter) (us : List ℚ) (u : ℚ),
      (checkRun rlx ip (us ++ [u])).1
        = (checkRun rlx ip us).1 ++ [((checkRun rlx ip us).2.check ip u).1] := by
    intro rlx us
    induction us generalizing rlx with
    | nil => intro u; simp [checkRun]
    | cons v vs ihv => intro u; simp [checkRun, ihv]
  have hN' : N = 1 + ts.length := by omega
  calc (checkRun rl ip (t0 :: (ts ++ [tlast]))).1
      = none :: (checkRun (rl.setBucket ip ⟨1, t0 + 60⟩) ip (ts ++ [tlast])).1 := by
        simp [checkRun, hfirst]
    _ = none :: ((checkRun (rl.setBucket ip ⟨1, t0 + 60⟩) ip ts).1
          ++ [(rl2.check ip tlast).1]) := by rw [hsplit]
    _ = none :: (List.replicate ts.length none
          ++ [some (max 1 (pyTrunc (t0 + 60 - tlast)))]) := by rw [hout, hreject]
    _ = List.replicate N (none : Option ℤ)
          ++ [some (max 1 (pyTrunc (t0 + 60 - tlast)))] := by
        rw [hN']
        simp [List.replicate_add, List.replicate_succ]

/-- Witness for C4 at `N = 2`: two calls allowed, the third rejected with a
positive retry-after. -/
theorem rate_limiter_exhausts_after_limit_witness :
    ∃ r : ℤ, 0 < r ∧
      (checkRun ⟨2, fun _ => none⟩ "127.0.0.1" ((0 : ℚ) :: ([30] ++ [59]))).1 =
        List.replicate 2 (none : Option ℤ) ++ [some r] :=
  rate_limiter_exhausts_after_limit ⟨2, fun _ => none⟩ "127.0.0.1" 2
    (by norm_num) rfl rfl 0 [30] rfl
    (by intro t ht; simp at ht; norm_num [ht]) 59 (by norm_num)

/-- C5 (counterexample to the ceiling): a bucket at its limit with
`window_reset - now = 3/2` makes `check` return `max(1, int(3/2)) = 1`,
not `max(1, ceil(3/2)) = 2`, even though the claim's hypotheses
(`now ≤ window_reset`, `count ≥ limit`) hold. -/
theorem rate_limiter_retry_after_not_ceil :
    let rl : RateLimiter := ⟨1, fun k => if k = "a" then some ⟨1, 3/2⟩ else none⟩
    (0 : ℚ) ≤ 3/2 ∧ rl.buckets "a" = some ⟨1, 3/2⟩ ∧ (1 : ℤ) ≥ rl.limit ∧
      (rl.check "a" 0).1 = some 1 ∧
      max (1 : ℤ) ⌈(3/2 : ℚ) - 0⌉ = 2 ∧
      (rl.check "a" 0).1 ≠ some (max (1 : ℤ) ⌈(3/2 : ℚ) - 0⌉) := by
  have hceil : max (1 : ℤ) ⌈(3/2 : ℚ) - 0⌉ = 2 := by
    rw [show ((3 : ℚ)/2 - 0) = 3/2 by norm_num,
        show (⌈(3/2 : ℚ)⌉ : ℤ) = 2 from by rw [Int.ceil_eq_iff]; norm_num]
    norm_num
  have hval : ((⟨1, fun k => if k = "a" then some ⟨1, 3/2⟩ else none⟩ :
      RateLimiter).check "a" 0).1 = some 1 := by
    norm_num [RateLimiter.check, pyTrunc]
  refine ⟨by norm_num, by simp, by norm_num, hval, hceil, ?_⟩
  rw [hval, hceil]
  decide

/-- C5 (amended): on a rejection inside the window the returned retry-after is
`max(1, ⌊window_reset - now⌋)` (Python `int()` truncation, which is the floor
here because the difference is nonnegative), and the limiter state — in
particular the bucket count — is unchanged. -/
theorem rate_limiter_retry_after_floor (rl : RateLimiter) (ip : String) (now : ℚ)
    (c : ℤ) (reset : ℚ) (hb : rl.buckets ip = some ⟨c, reset⟩)
    (hwin : now ≤ reset) (hc : c ≥ rl.limit) :
    rl.check ip now = (some (max 1 ⌊reset - now⌋), rl) := by
  have : pyTrunc (reset - now) = ⌊reset - now⌋ :=
    pyTrunc_of_nonneg (by linarith)
  simp [RateLimiter.check, hb, not_lt.mpr hwin, hc, this]

/-- Witness for the amended C5: a concrete rejected call returns
`max(1, ⌊3/2⌋) = 1` and leaves the limiter untouched. -/
theorem rate_limiter_retry_after_floor_witness :
    (RateLimiter.check ⟨1, fun k => if k = "a" then some ⟨1, 3/2⟩ else none⟩ "a" 0).1
      = some (max 1 ⌊(3/2 : ℚ) - 0⌋) := by
  have h := rate_limiter_retry_after_floor
    ⟨1, fun k => if k = "a" then some ⟨1, 3/2⟩ else none⟩ "a" 0 1 (3/2)
    (by simp) (by norm_num) (by norm_num)
  rw [h]

/-- C10: for any configured limit (including zero and negative values), the
first `check` for an identifier with no bucket, and the first call after the
window expired, create/reset the bucket with `count = 1` and allow the
request; a rejection can only happen on a later call inside an active window
(`now ≤ reset`) with `count ≥ limit`. -/
theorem rate_limiter_first_call_always_allowed (rl : RateLimiter) (ip : String) (now : ℚ) :
    (rl.buckets ip = none →
       rl.check ip now = (none, rl.setBucket ip ⟨1, now + 60⟩)) ∧
    (∀ b, rl.buckets ip = some b → now > b.reset →
       rl.check ip now = (none, rl.setBucket ip ⟨1, now + 60⟩)) ∧
    (∀ r, (rl.check ip now).1 = some r →
       ∃ b, rl.buckets ip = some b ∧ now ≤ b.reset ∧ b.count ≥ rl.limit) := by
  refine ⟨fun h => by simp [RateLimiter.check, h], fun b hb hgt => ?_, fun r hr => ?_⟩
  · simp [RateLimiter.check, hb, hgt]
  · unfold RateLimiter.check at hr
    cases hcase : rl.buckets ip with
    | none => simp [hcase] at hr
    | some b =>
      refine ⟨b, rfl, ?_, ?_⟩ <;>
      · simp only [hcase] at hr
        by_cases h1 : now > b.reset
        · simp [h1] at hr
        · by_cases h2 : b.count ≥ rl.limit
          · first
            | exact not_lt.mp h1
            | exact h2
          · simp [h1, h2] at hr

/-- Witness for C10: with a negative limit `-5`, the first call for a fresh
identifier is still allowed and creates a count-1 bucket. -/
theorem rate_limiter_first_call_always_allowed_witness :
    RateLimiter.check ⟨-5, fun _ => none⟩ "a" 0
      = (none, RateLimiter.setBucket ⟨-5, fun _ => none⟩ "a" ⟨1, 0 + 60⟩) :=
  (rate_limiter_first_call_always_allowed ⟨-5, fun _ => none⟩ "a" 0).1 rfl

/-! ## JobManager (`app/services/job_manager.py`)

Job records are Python dicts; the keys actually used by the code are
`status`, `created_at`, `completed_at`, `result` and `error`
(`Option` = key absent).  The job store `_jobs` is a dict keyed by the job
id, modelled as an association list (dict insertion order). -/

/-- A dynamically-typed Python value, as far as `run_job` inspects results:
`None`, dicts (`isinstance(result, dict)`, `.get`), objects exposing
`model_dump()` (pydantic models), and other opaque values. -/
inductive PyVal where
  | none
  | bool (b : Bool)
  | int (n : ℤ)
  | str (s : String)
  | list (xs : List PyVal)
  | dict (entries : List (String × PyVal))
  | model (dump : PyVal)
  | obj (tag : String)

/-- Python truthiness (`if result.get("error"):`). -/
def PyVal.truthy : PyVal → Bool
  | .none => false
  | .bool b => b
  | .int n => n != 0
  | .str s => !s.isEmpty
  | .list xs => !xs.isEmpty
  | .dict es => !es.isEmpty
  | .model _ => true
  | .obj _ => true

/-- `d.get(k)`: first entry with the key, if any. -/
def dictGet (es : List (String × PyVal)) (k : String) : Option PyVal :=
  match es.find? (fun p => p.1 == k) with
  | some p => some p.2
  | Option.none => Option.none

/-- `result.model_dump() if hasattr(result, "model_dump") else result`. -/
def PyVal.stored : PyVal → PyVal
  | .model d => d
  | v => v

/-- One job record (the dict fields the code reads and writes). -/
structure JobRecord where
  status : String
  created_at : Option ℚ := Option.none
  completed_at : Option ℚ := Option.none
  result : Option PyVal := Option.none
  error : Option PyVal := Option.none

/-- `record.update(status=…, **extra)`: `status` is always overwritten, an
extra keyword argument (modelled as `some v`) overwrites its key, an absent
keyword argument (`none`) leaves the stored value untouched. -/
def JobRecord.updateWith (r : JobRecord) (status : String)
    (completed_at : Option ℚ) (result : Option PyVal) (error : Option PyVal) :
    JobRecord :=
  { r with
    status := status
    completed_at := match completed_at with
      | some v => some v
      | Option.none => r.completed_at
    result := match result with
      | some v => some v
      | Option.none => r.result
    error := match error with
      | some v => some v
      | Option.none => r.error }

/-- The `JobManager`: its `_jobs` dict as an association list. -/
structure JobManager where
  jobs : List (String × JobRecord)

/-- `self._jobs.get(job_id)` on the underlying dict. -/
def lookupJob : List (String × JobRecord) → String → Option JobRecord
  | [], _ => Option.none
  | p :: ps, jid => if p.1 = jid then some p.2 else lookupJob ps jid

/-- `create_job()`: insert `{"status": "queued", "created_at": now}` under a
fresh id (the id is passed in, standing for `uuid.uuid4()`). -/
def JobManager.create_job (jm : JobManager) (jid : String) (now : ℚ) : JobManager :=
  { jm with jobs := jm.jobs ++ [(jid, { status := "queued", created_at := some now })] }

/-- `set_status(job_id, status, **extra)`: merge into the record if the job
exists, silently no-op otherwise. -/
def JobManager.set_status (jm : JobManager) (jid : String) (status : String)
    (completed_at : Option ℚ) (result : Option PyVal) (error : Option PyVal) :
    JobManager :=
  if (lookupJob jm.jobs jid).isSome then
    { jm with jobs := jm.jobs.map (fun p =>
        if p.1 = jid then (p.1, p.2.updateWith status completed_at result error) else p) }
  else jm

/-- `get(job_id)`. -/
def JobManager.get (jm : JobManager) (jid : String) : Option JobRecord :=
  lookupJob jm.jobs jid

/-- `active_count()`: jobs whose status is `queued` or `running`. -/
def JobManager.active_count (jm : JobManager) : ℕ :=
  (jm.jobs.filter (fun p => p.2.status == "queued" || p.2.status == "running")).length

/-- The staleness test of `cleanup`: `now - rec.get("created_at", now) > ttl_seconds`. -/
def staleAt (now : ℚ) (ttl : ℤ) (p : String × JobRecord) : Bool :=
  decide (now - (p.2.created_at.getD now) > (ttl : ℚ))

/-- `cleanup(ttl_seconds)`: collect the stale job ids, then pop each of them
from the dict, counting the removals. -/
def JobManager.cleanup (jm : JobManager) (now : ℚ) (ttl : ℤ) : ℕ × JobManager :=
  let stale := (jm.jobs.filter (staleAt now ttl)).map Prod.fst
  let jobs2 := stale.foldl (fun js jid => js.filter (fun p => p.1 != jid)) jm.jobs
  (stale.length, { jm with jobs := jobs2 })

/-- The outcome of awaiting `coro_factory()` inside `run_job`: either a value
or a raised exception (carrying `str(exception)`). -/
inductive WorkOutcome where
  | ok (v : PyVal)
  | exn (msg : String)

/-- `run_job(job_id, coro_factory)`: set `running`, await the work, then
classify the outcome exactly as the source does — `None` result → error
record; dict with truthy `"error"` → error record with
`result.get("summary", "Bedrock error")`; any other value → `done` with the
converted (`model_dump`-ped) result; a raised exception → error record with
`str(e)`.  `tdone` stands for the `time.time()` at completion. -/
def JobManager.run_job (jm : JobManager) (jid : String) (outcome : WorkOutcome)
    (tdone : ℚ) : JobManager :=
  let jm1 := jm.set_status jid "running" Option.none Option.none Option.none
  match outcome with
  | .exn msg =>
    jm1.set_status jid "error" (some tdone) Option.none (some (.str msg))
  | .ok v =>
    match v with
    | .none =>
      jm1.set_status jid "error" (some tdone) Option.none
        (some (.str "No result returned from code review."))
    | .dict es =>
      if ((dictGet es "error").getD .none).truthy then
        jm1.set_status jid "error" (some tdone) Option.none
          (some ((dictGet es "summary").getD (.str "Bedrock error")))
      else
        jm1.set_status jid "done" (some tdone) (some (PyVal.stored (.dict es))) Option.none
    | v =>
      jm1.set_status jid "done" (some tdone) (some v.stored) Option.none

/-- Mapping an update over the entries with a given key rewrites the record
the lookup returns. -/
theorem lookupJob_map_update (ps : List (String × JobRecord)) (jid : String)
    (rec : JobRecord) (f : JobRecord → JobRecord)
    (h : lookupJob ps jid = some rec) :
    lookupJob (ps.map (fun p => if p.1 = jid then (p.1, f p.2) else p)) jid
      = some (f rec) := by
  induction ps with
  | nil => simp [lookupJob] at h
  | cons p ps ih =>
    by_cases hp : p.1 = jid
    · rw [lookupJob, if_pos hp] at h
      injection h with h
      simp [lookupJob, hp, h]
    · rw [lookupJob, if_neg hp] at h
      simpa [lookupJob, hp] using ih h

/-- Looking a job up after `set_status` on the same id yields the merged
record (the first entry with that key is the one the dict holds). -/
theorem lookupJob_set_status (jm : JobManager) (jid : String) (rec : JobRecord)
    (st : String) (ca : Option ℚ) (res err : Option PyVal)
    (h : lookupJob jm.jobs jid = some rec) :
    lookupJob (jm.set_status jid st ca res err).jobs jid
      = some (rec.updateWith st ca res err) := by
  have hsome : (lookupJob jm.jobs jid).isSome := by rw [h]; rfl
  unfold JobManager.set_status
  rw [if_pos hsome]
  exact lookupJob_map_update jm.jobs jid rec
    (fun r => r.updateWith st ca res err) h

/-! ### Claim theorems for the job manager -/

/-- C7: when the awaited work raises, `run_job` swallows the exception and
records it on the existing job: `status = "error"`, `error = str(exception)`,
`completed_at` set; the stored result is untouched.  `run_job` being a total
function of the outcome, the exception never propagates to its caller. -/
theorem run_job_swallows_exception (jm : JobManager) (jid : String)
    (rec : JobRecord) (msg : String) (tdone : ℚ)
    (h : lookupJob jm.jobs jid = some rec) :
    lookupJob (jm.run_job jid (.exn msg) tdone).jobs jid
      = some { rec with
                 status := "error"
                 error := some (.str msg)
                 completed_at := some tdone } := by
  have h1 := lookupJob_set_status jm jid rec "running"
    Option.none Option.none Option.none h
  have h2 := lookupJob_set_status
    (jm.set_status jid "running" Option.none Option.none Option.none) jid
    (rec.updateWith "running" Option.none Option.none Option.none)
    "error" (some tdone) Option.none (some (.str msg)) h1
  simpa [JobManager.run_job, JobRecord.updateWith] using h2

/-- Witness for C7: a concrete raised exception is recorded on the job. -/
theorem run_job_swallows_exception_witness :
    lookupJob
      ((JobManager.mk [("j1", { status := "queued", created_at := some 1 })]).run_job
        "j1" (.exn "boom") 9).jobs "j1"
      = some { status := "error", created_at := some 1, completed_at := some 9,
               result := Option.none, error := some (.str "boom") } :=
  run_job_swallows_exception
    (JobManager.mk [("j1", { status := "queued", created_at := some 1 })])
    "j1" { status := "queued", created_at := some 1 } "boom" 9 rfl

/-- C9: classification of non-raising work results by `run_job` — a `None`
result or a dict with a truthy `"error"` entry ends the job in `status =
"error"` (with an error message and `completed_at`), never `done`; every
other (non-`None`) result ends it in `status = "done"` with the converted
result. -/
theorem run_job_result_classification (jm : JobManager) (jid : String)
    (rec : JobRecord) (tdone : ℚ)
    (h : lookupJob jm.jobs jid = some rec) :
    (lookupJob (jm.run_job jid (.ok .none) tdone).jobs jid
       = some { rec with
                  status := "error"
                  error := some (.str "No result returned from code review.")
                  completed_at := some tdone }) ∧
    (∀ es, ((dictGet es "error").getD .none).truthy = true →
       lookupJob (jm.run_job jid (.ok (.dict es)) tdone).jobs jid
         = some { rec with
                    status := "error"
                    error := some ((dictGet es "summary").getD (.str "Bedrock error"))
                    completed_at := some tdone }) ∧
    (∀ es, ((dictGet es "error").getD .none).truthy = false →
       lookupJob (jm.run_job jid (.ok (.dict es)) tdone).jobs jid
         = some { rec with
                    status := "done"
                    result := some (PyVal.stored (.dict es))
                    completed_at := some tdone }) ∧
    (∀ s, lookupJob (jm.run_job jid (.ok (.str s)) tdone).jobs jid
       = some { rec with
                  status := "done"
                  result := some (PyVal.str s)
                  completed_at := some tdone }) ∧
    (∀ d, lookupJob (jm.run_job jid (.ok (.model d)) tdone).jobs jid
       = some { rec with
                  status := "done"
                  result := some d
                  completed_at := some tdone }) := by
  have h1 := lookupJob_set_status jm jid rec "running"
    Option.none Option.none Option.none h
  set jm1 := jm.set_status jid "running" Option.none Option.none Option.none
  set rec1 := rec.updateWith "running" Option.none Option.none Option.none with hrec1
  refine ⟨?_, ?_, ?_, ?_, ?_⟩
  · have h2 := lookupJob_set_status jm1 jid rec1 "error" (some tdone)
      Option.none (some (.str "No result returned from code review.")) h1
    simpa [JobManager.run_job, JobRecord.updateWith, hrec1] using h2
  · intro es hes
    have h2 := lookupJob_set_status jm1 jid rec1 "error" (some tdone)
      Option.none (some ((dictGet es "summary").getD (.str "Bedrock error"))) h1
    simpa [JobManager.run_job, hes, JobRecord.updateWith, hrec1] using h2
  · intro es hes
    have h2 := lookupJob_set_status jm1 jid rec1 "done" (some tdone)
      (some (PyVal.stored (.dict es))) Option.none h1
    simpa [JobManager.run_job, hes, JobRecord.updateWith, hrec1] using h2
  · intro s
    have h2 := lookupJob_set_status jm1 jid rec1 "done" (some tdone)
      (some (PyVal.str s)) Option.none h1
    simpa [JobManager.run_job, JobRecord.updateWith, PyVal.stored, hrec1] using h2
  · intro d
    have h2 := lookupJob_set_status jm1 jid rec1 "done" (some tdone)
      (some d) Option.none h1
    simpa [JobManager.run_job, JobRecord.updateWith, PyVal.stored, hrec1] using h2

/-- Witness for C9: a dict result carrying a truthy `"error"` entry ends a
concrete job in `status = "error"` with the dict's summary as message. -/
theorem run_job_result_classification_witness :
    lookupJob
      ((JobManager.mk [("j1", { status := "queued", created_at := some 1 })]).run_job
        "j1" (.ok (.dict [("error", .bool true), ("summary", .str "Bedrock error: x")]))
        9).jobs "j1"
      = some { status := "error", created_at := some 1, completed_at := some 9,
               result := Option.none, error := some (.str "Bedrock error: x") } :=
  ((run_job_result_classification
      (JobManager.mk [("j1", { status := "queued", created_at := some 1 })])
      "j1" { status := "queued", created_at := some 1 } 9 rfl).2.1
    [("error", .bool true), ("summary", .str "Bedrock error: x")] rfl)

/-- Folding pops of each id in `ids` over the job list keeps exactly the
entries whose key is not among `ids`. -/
theorem foldl_pop_eq_filter (ids : List String) (js : List (String × JobRecord)) :
    ids.foldl (fun acc jid => acc.filter (fun p => p.1 != jid)) js
      = js.filter (fun p => decide (p.1 ∉ ids)) := by
  induction ids generalizing js with
  | nil => simp
  | cons i ids ih =>
    rw [List.foldl_cons, ih, List.filter_filter]
    refine List.filter_congr (fun p _ => ?_)
    by_cases h1 : p.1 = i <;> by_cases h2 : p.1 ∈ ids <;>
      simp [h1, h2]

/-- C6: `cleanup(ttl)` keeps exactly the jobs whose age `now - created_at`
does not exceed `ttl` — removal ignores the job status entirely — and the
returned count is the number of removed entries. -/
theorem cleanup_removes_exactly_stale (jm : JobManager) (now : ℚ) (ttl : ℤ)
    (hnd : (jm.jobs.map Prod.fst).Nodup) :
    (jm.cleanup now ttl).2.jobs = jm.jobs.filter (fun p => !staleAt now ttl p) ∧
    (jm.cleanup now ttl).1 + (jm.cleanup now ttl).2.jobs.length = jm.jobs.length := by
  have hmem : ∀ p ∈ jm.jobs,
      (decide (p.1 ∉ (jm.jobs.filter (staleAt now ttl)).map Prod.fst))
        = !staleAt now ttl p := by
    intro p hp
    by_cases hs : staleAt now ttl p
    · have : p.1 ∈ (jm.jobs.filter (staleAt now ttl)).map Prod.fst :=
        List.mem_map_of_mem Prod.fst (List.mem_filter.mpr ⟨hp, hs⟩)
      simp [this, hs]
    · have : p.1 ∉ (jm.jobs.filter (staleAt now ttl)).map Prod.fst := by
        intro hin
        obtain ⟨q, hq, hq1⟩ := List.mem_map.mp hin
        obtain ⟨hqmem, hqs⟩ := List.mem_filter.mp hq
        have : q = p := List.inj_on_of_nodup_map hnd hqmem hp hq1
        rw [this] at hqs
        exact hs hqs
      have hs' : staleAt now ttl p = false := Bool.eq_false_iff.mpr hs
      simp [this, hs']
  have hkept : (jm.cleanup now ttl).2.jobs
      = jm.jobs.filter (fun p => !staleAt now ttl p) := by
    show ((jm.jobs.filter (staleAt now ttl)).map Prod.fst).foldl
        (fun acc jid => acc.filter (fun p => p.1 != jid)) jm.jobs
      = jm.jobs.filter (fun p => !staleAt now ttl p)
    rw [foldl_pop_eq_filter]
    exact List.filter_congr hmem
  refine ⟨hkept, ?_⟩
  have hcount : (jm.cleanup now ttl).1 = (jm.jobs.filter (staleAt now ttl)).length := by
    show ((jm.jobs.filter (staleAt now ttl)).map Prod.fst).length = _
    rw [List.length_map]
  rw [hcount, hkept]
  exact (List.length_eq_length_filter_add (staleAt now ttl)).symm

/-- Witness for C6: a store holding one fresh queued job, one stale running
job and one stale done job; `cleanup` removes both stale jobs (the running
one included) and returns 2. -/
theorem cleanup_removes_exactly_stale_witness :
    ((JobManager.mk
        [("a", { status := "queued", created_at := some 95 }),
         ("b", { status := "running", created_at := some 10 }),
         ("c", { status := "done", created_at := some 20 })]).cleanup 100 30).2.jobs
      = (JobManager.mk
        [("a", { status := "queued", created_at := some 95 }),
         ("b", { status := "running", created_at := some 10 }),
         ("c", { status := "done", created_at := some 20 })]).jobs.filter
          (fun p => !staleAt 100 30 p) ∧
    ((JobManager.mk
        [("a", { status := "queued", created_at := some 95 }),
         ("b", { status := "running", created_at := some 10 }),
         ("c", { status := "done", created_at := some 20 })]).cleanup 100 30).1
        + ((JobManager.mk
        [("a", { status := "queued", created_at := some 95 }),
         ("b", { status := "running", created_at := some 10 }),
         ("c", { status := "done", created_at := some 20 })]).cleanup 100 30).2.jobs.length
      = 3 :=
  cleanup_removes_exactly_stale
    (JobManager.mk
      [("a", { status := "queued", created_at := some 95 }),
       ("b", { status := "running", created_at := some 10 }),
       ("c", { status := "done", created_at := some 20 })]) 100 30
    (by simp)

/-! ## Domain models (`app/domain/models.py`) and
ConversationManager (`app/services/conversation_manager.py`) -/

/-- `Issue`: one code-quality finding (all fields `Optional[str]`,
default `None`). -/
structure Issue where
  type : Option String := Option.none
  description : Option String := Option.none
  suggestion : Option String := Option.none
  deriving DecidableEq, Repr

/-- A message-metadata value (`metadata` dicts only ever carry a code string
or a list of issue dicts in this code base). -/
inductive MetaVal where
  | s (v : String)
  | issues (v : List Issue)
  deriving DecidableEq, Repr

/-- The optional `metadata` dict of a message. -/
abbrev Metadata := List (String × MetaVal)

/-- `Message`: immutable conversation entry. -/
structure Message where
  role : String
  content : String
  timestamp : ℚ
  metadata : Option Metadata := Option.none
  deriving DecidableEq, Repr

/-- `ConversationState`.  Pydantic defaults: every field `None` except
`awaiting_decision`, whose default is `False` (i.e. `some false`). -/
structure ConversationState where
  original_code : Option String := Option.none
  current_code : Option String := Option.none
  detected_issues : Option (List Issue) := Option.none
  pending_issues : Option (List String) := Option.none
  applied_fixes : Option (List String) := Option.none
  awaiting_decision : Option Bool := some false
  deriving DecidableEq, Repr

/-- The default-constructed `ConversationState()`. -/
def ConversationState.default : ConversationState := {}

/-- `Conversation`: id, timestamps, message history, state. -/
structure Conversation where
  conversation_id : String
  created_at : ℚ
  updated_at : ℚ
  messages : List Message := []
  state : ConversationState := ConversationState.default
  deriving DecidableEq, Repr

/-- The `ConversationManager`: its `_conversations` dict. -/
structure ConversationManager where
  conversations : String → Option Conversation

/-- `self._conversations[cid] = conv`. -/
def ConversationManager.setConv (cm : ConversationManager) (cid : String)
    (conv : Conversation) : ConversationManager :=
  ⟨fun k => if k = cid then some conv else cm.conversations k⟩

/-- `create_conversation()`: store a fresh default `Conversation` (its
generated uuid and the current time are passed in). -/
def ConversationManager.create_conversation (cm : ConversationManager)
    (cid : String) (t : ℚ) : ConversationManager :=
  cm.setConv cid { conversation_id := cid, created_at := t, updated_at := t }

/-- `get_conversation(id)`. -/
def ConversationManager.get_conversation (cm : ConversationManager)
    (cid : String) : Option Conversation :=
  cm.conversations cid

/-- `add_message(id, role, content, metadata)`: append a `Message` stamped
with the current time and bump `updated_at`; no-op when the conversation is
unknown. -/
def ConversationManager.add_message (cm : ConversationManager) (cid : String)
    (role content : String) (metadata : Option Metadata) (t : ℚ) :
    ConversationManager :=
  match cm.conversations cid with
  | Option.none => cm
  | some conv =>
    cm.setConv cid
      { conv with
          messages := conv.messages ++ [{ role := role, content := content,
                                          timestamp := t, metadata := metadata }]
          updated_at := t }

/-- The merge of `update_state`: each of the six fields of the stored state
is overwritten only when the update carries a non-`None` value for it. -/
def mergeState (cur upd : ConversationState) : ConversationState :=
  { original_code := match upd.original_code with
      | some v => some v
      | Option.none => cur.original_code
    current_code := match upd.current_code with
      | some v => some v
      | Option.none => cur.current_code
    detected_issues := match upd.detected_issues with
      | some v => some v
      | Option.none => cur.detected_issues
    pending_issues := match upd.pending_issues with
      | some v => some v
      | Option.none => cur.pending_issues
    applied_fixes := match upd.applied_fixes with
      | some v => some v
      | Option.none => cur.applied_fixes
    awaiting_decision := match upd.awaiting_decision with
      | some v => some v
      | Option.none => cur.awaiting_decision }

/-- `update_state(id, state)`: partial merge into the stored state, bumping
`updated_at`; no-op when the conversation is unknown. -/
def ConversationManager.update_state (cm : ConversationManager) (cid : String)
    (upd : ConversationState) (t : ℚ) : ConversationManager :=
  match cm.conversations cid with
  | Option.none => cm
  | some conv =>
    cm.setConv cid { conv with state := mergeState conv.state upd, updated_at := t }

/-- `delete_conversation(id)`. -/
def ConversationManager.delete_conversation (cm : ConversationManager)
    (cid : String) : Bool × ConversationManager :=
  match cm.conversations cid with
  | Option.none => (false, cm)
  | some _ => (true, ⟨fun k => if k = cid then Option.none else cm.conversations k⟩)

@[simp]
theorem ConversationManager.setConv_same (cm : ConversationManager) (cid : String)
    (conv : Conversation) : (cm.setConv cid conv).conversations cid = some conv := by
  simp [ConversationManager.setConv]

/-! ### Claim theorem for the conversation manager (C1) -/

/-- C1: `update_state` on an existing conversation overwrites exactly the
non-absent fields of the partial update and leaves every absent field — all
six of them, `awaiting_decision` included — unchanged (never reset to a
default); the message history is untouched. -/
theorem update_state_is_partial_merge (cm : ConversationManager) (cid : String)
    (conv : Conversation) (upd : ConversationState) (t : ℚ)
    (h : cm.conversations cid = some conv) :
    ∃ conv2, (cm.update_state cid upd t).conversations cid = some conv2 ∧
      conv2.messages = conv.messages ∧
      (∀ v, upd.original_code = some v → conv2.state.original_code = some v) ∧
      (upd.original_code = Option.none →
        conv2.state.original_code = conv.state.original_code) ∧
      (∀ v, upd.current_code = some v → conv2.state.current_code = some v) ∧
      (upd.current_code = Option.none →
        conv2.state.current_code = conv.state.current_code) ∧
      (∀ v, upd.detected_issues = some v → conv2.state.detected_issues = some v) ∧
      (upd.detected_issues = Option.none →
        conv2.state.detected_issues = conv.state.detected_issues) ∧
      (∀ v, upd.pending_issues = some v → conv2.state.pending_issues = some v) ∧
      (upd.pending_issues = Option.none →
        conv2.state.pending_issues = conv.state.pending_issues) ∧
      (∀ v, upd.applied_fixes = some v → conv2.state.applied_fixes = some v) ∧
      (upd.applied_fixes = Option.none →
        conv2.state.applied_fixes = conv.state.applied_fixes) ∧
      (∀ v, upd.awaiting_decision = some v → conv2.state.awaiting_decision = some v) ∧
      (upd.awaiting_decision = Option.none →
        conv2.state.awaiting_decision = conv.state.awaiting_decision) := by
  refine ⟨{ conv with state := mergeState conv.state upd, updated_at := t },
    by simp [ConversationManager.update_state, h], rfl, ?_, ?_, ?_, ?_, ?_, ?_,
    ?_, ?_, ?_, ?_, ?_, ?_⟩ <;>
    first
      | (intro v hv; simp [mergeState, hv])
      | (intro hv; simp [mergeState, hv])

/-- Witness for C1: updating only `applied_fixes` leaves the previously set
`pending_issues` (and everything else, `awaiting_decision` included) intact. -/
theorem update_state_is_partial_merge_witness :
    ∃ conv2,
      ((ConversationManager.mk (fun k =>
          if k = "c1" then some
            { conversation_id := "c1", created_at := 0, updated_at := 0,
              messages := [],
              state := { original_code := some "x", current_code := some "x",
                         detected_issues := some [],
                         pending_issues := some ["PERFORMANCE", "SECURITY"],
                         applied_fixes := some [],
                         awaiting_decision := some true } }
          else Option.none)).update_state "c1"
          { original_code := Option.none, current_code := Option.none,
            detected_issues := Option.none, pending_issues := Option.none,
            applied_fixes := some ["SECURITY"],
            awaiting_decision := Option.none } 5).conversations "c1" = some conv2 ∧
      conv2.messages = [] ∧
      (∀ v, (some ["SECURITY"] : Option (List String)) = some v →
        conv2.state.applied_fixes = some v) ∧
      ((some ["SECURITY"] : Option (List String)) = Option.none →
        conv2.state.applied_fixes = some []) ∧
      ((Option.none : Option (List String)) = Option.none →
        conv2.state.pending_issues = some ["PERFORMANCE", "SECURITY"]) ∧
      ((Option.none : Option Bool) = Option.none →
        conv2.state.awaiting_decision = some true) := by
  obtain ⟨conv2, h1, h2, _, _, _, _, _, _, h3, h4, h5, h6, h7, h8⟩ :=
    update_state_is_partial_merge
      (ConversationManager.mk (fun k =>
          if k = "c1" then some
            { conversation_id := "c1", created_at := 0, updated_at := 0,
              messages := [],
              state := { original_code := some "x", current_code := some "x",
                         detected_issues := some [],
                         pending_issues := some ["PERFORMANCE", "SECURITY"],
                         applied_fixes := some [],
                         awaiting_decision := some true } }
          else Option.none)) "c1"
      { conversation_id := "c1", created_at := 0, updated_at := 0,
        messages := [],
        state := { original_code := some "x", current_code := some "x",
                   detected_issues := some [],
                   pending_issues := some ["PERFORMANCE", "SECURITY"],
                   applied_fixes := some [],
                   awaiting_decision := some true } }
      { original_code := Option.none, current_code := Option.none,
        detected_issues := Option.none, pending_issues := Option.none,
        applied_fixes := some ["SECURITY"],
        awaiting_decision := Option.none } 5 (by simp)
  exact ⟨conv2, h1, h2, h5, fun hc => absurd hc (by simp),
    fun _ => h4 rfl, fun _ => h8 rfl⟩

/-! ## The `/chat` orchestrator (`app/api/chat.py`)

The endpoint is embedded as a pure function of the request body, the `fast`
query flag, the conversation store, and the external collaborators
(`KotlinAnalysisSwarm.analyze`, `CodeReviewProject.improve_code`,
`BedrockClient.chat`, `uuid.uuid4`, the clock), which are passed in as an
`Oracles` record.  `analyze` is modelled at the gateway boundary as an
already-normalized `{summary, issues}` record (the normalization loop of
`_handle_new_analysis` turns the raw swarm dict into exactly that), with
`Except.error` standing for a raised exception. -/

/-- Python truthiness of an optional string (`None` and `""` are falsy). -/
def optStrTruthy : Option String → Bool
  | some s => !s.isEmpty
  | Option.none => false

/-- Python `a or default` for an optional string: the default replaces a
falsy (`None` or empty) value. -/
def pyStrOr (a : Option String) (default : String) : String :=
  match a with
  | some s => if s.isEmpty then default else s
  | Option.none => default

/-- `s.lower()`. -/
def pyLower (s : String) : String := String.mk (s.toList.map Char.toLower)

/-- Substring occurrence on character lists (Python `needle in hay`). -/
def charsHaveSub (needle : List Char) : List Char → Bool
  | [] => needle.isEmpty
  | c :: rest => needle.isPrefixOf (c :: rest) || charsHaveSub needle rest

/-- Python `needle in hay` for strings. -/
def pyContains (hay needle : String) : Bool :=
  charsHaveSub needle.toList hay.toList

/-- `[issue.type for issue in issues if issue.type]` (truthiness filter:
`None` and `""` types are dropped). -/
def truthyTypes (issues : List Issue) : List String :=
  issues.filterMap (fun i =>
    match i.type with
    | some t => if t.isEmpty then Option.none else some t
    | Option.none => Option.none)

/-- `x in l` for an optional string against a list of strings (`None` is not
equal to any string). -/
def optStrMem : Option String → List String → Bool
  | some t, l => l.contains t
  | Option.none, _ => false

/-- `ChatRequest` (the request body fields the endpoint reads). -/
structure ChatRequest where
  source_code : Option String := Option.none
  code_snippet : Option String := Option.none
  conversation_id : Option String := Option.none
  message : Option String := Option.none
  apply_improvements : Option Bool := Option.none
  deriving DecidableEq, Repr

/-- `ChatRequest.get_code()`: `self.source_code or self.code_snippet`. -/
def ChatRequest.get_code (b : ChatRequest) : Option String :=
  match b.source_code with
  | some s => if s.isEmpty then b.code_snippet else some s
  | Option.none => b.code_snippet

/-- `ChatResponse` (pydantic defaults: `awaiting_user_input = False`, all
other fields `None`). -/
structure ChatResponse where
  summary : Option String := Option.none
  issues : Option (List Issue) := Option.none
  conversation_id : Option String := Option.none
  improved_code : Option String := Option.none
  awaiting_user_input : Option Bool := some false
  suggested_actions : Option (List String) := Option.none
  deriving DecidableEq, Repr

/-- The normalized result of the analysis gateway
(`{"summary": …, "issues": […]}` after the normalization loop). -/
structure AnalysisResult where
  summary : Option String := Option.none
  issues : List Issue := []

/-- External collaborators of one request: the swarm analysis outcome
(`Except.error` = raised exception), the improver output, the Bedrock chat
answer (`none` = raised exception), the generated uuid, and the clock. -/
structure Oracles where
  analyze : Except String AnalysisResult
  improve : String
  bedrockChat : Option String
  newConvId : String
  now : ℚ

/-- How one `/chat` request ends: a 200 response together with the updated
conversation store, a raised `InvalidInput`, a 404 `HTTPException`, the
structured 500 payload of `_handle_new_analysis`, or an unhandled Python
exception (e.g. a pydantic `ValidationError`). -/
inductive ChatOutcome where
  | ok (resp : ChatResponse) (cm : ConversationManager)
  | invalidInput (msg : String)
  | httpNotFound
  | internalError (details : String)
  | pyError (kind : String)

/-- Whether the request ended in a raised `InvalidInput`. -/
def ChatOutcome.isInvalidInputB : ChatOutcome → Bool
  | .invalidInput _ => true
  | _ => false

/-- The 200 response, if any. -/
def ChatOutcome.respOf : ChatOutcome → Option ChatResponse
  | .ok r _ => some r
  | _ => Option.none

/-- The conversation store after a 200 response, if any. -/
def ChatOutcome.cmOf : ChatOutcome → Option ConversationManager
  | .ok _ cm => some cm
  | _ => Option.none

/-- `_handle_decline_improvements`: acknowledgment message, then
`update_state` with `ConversationState(awaiting_decision=False)` (all other
fields default to `None`). -/
def handleDeclineImprovements (conv_id : String) (cm : ConversationManager)
    (t : ℚ) : ChatOutcome :=
  let cm1 := cm.add_message conv_id "assistant"
    "Understood. Let me know if you need anything else." Option.none t
  let cm2 := cm1.update_state conv_id
    { original_code := Option.none, current_code := Option.none,
      detected_issues := Option.none, pending_issues := Option.none,
      applied_fixes := Option.none, awaiting_decision := some false } t
  .ok { summary := some "No problem! Let me know if you change your mind.",
        conversation_id := some conv_id,
        awaiting_user_input := some false } cm2

/-- The `response_summary` of `_handle_general_question`: the Bedrock answer,
or the fixed apology when the Bedrock call raises. -/
def bedrockAnswer (orc : Oracles) : String :=
  match orc.bedrockChat with
  | some a => a
  | Option.none =>
    "I apologize, but I\x27m having trouble processing your question right now. Could you please rephrase it or ask something else?"

/-- `_handle_general_question`: build context from the conversation, ask
Bedrock (falling back to an apology if it raises), store the answer as an
assistant message. -/
def handleGeneralQuestion (conv_id : String) (_user_message : String)
    (cm : ConversationManager) (orc : Oracles) : ChatOutcome :=
  match cm.conversations conv_id with
  | Option.none => .pyError "AttributeError"
  | some _ =>
    let response_summary := bedrockAnswer orc
    let cm1 := cm.add_message conv_id "assistant" response_summary Option.none orc.now
    .ok { summary := some response_summary,
          conversation_id := some conv_id,
          awaiting_user_input := some false } cm1

/-- `_handle_apply_improvements`: pick `fix_types` from keywords in the
user message, call the improver on the stored original code and issues,
record the assistant message, merge the new state, and answer with the
improved code and the remaining issue types. -/
def handleApplyImprovements (conv_id : String) (user_message : String)
    (cm : ConversationManager) (orc : Oracles) : ChatOutcome :=
  match cm.conversations conv_id with
  | Option.none => .pyError "AttributeError"
  | some conversation =>
    let ml := pyLower user_message
    let fix_types : Option (List String) :=
      if pyContains ml "security" && !pyContains ml "performance" then
        some ["SECURITY"]
      else if pyContains ml "performance" && !pyContains ml "security" then
        some ["PERFORMANCE"]
      else if pyContains ml "best practice" || pyContains ml "style"
          || pyContains ml "formatting" then
        some ["BEST_PRACTICE", "STYLE"]
      else Option.none
    let issues := conversation.state.detected_issues.getD []
    let improved_code := orc.improve
    let applied_fix_types :=
      match fix_types with
      | some l => l
      | Option.none => truthyTypes issues
    let cm1 := cm.add_message conv_id "assistant"
      "I\x27ve generated improved code based on the issues found."
      (some [("improved_code", .s improved_code)]) orc.now
    let remaining : List (Option String) :=
      match fix_types with
      | some _ =>
        (issues.filter (fun i => !optStrMem i.type applied_fix_types)).map
          (fun i => i.type)
      | Option.none => []
    if remaining.any (fun o => o.isNone) then
      .pyError "ValidationError"
    else
      let remainingS := remaining.filterMap id
      let cm2 := cm1.update_state conv_id
        { original_code := Option.none,
          current_code := some improved_code,
          detected_issues := Option.none,
          pending_issues := some remainingS,
          applied_fixes := some applied_fix_types,
          awaiting_decision := some (decide (remainingS.length > 0)) } orc.now
      .ok { summary := some ("Code improvements applied successfully"
              ++ (if remainingS.isEmpty then ""
                  else ". Remaining issues: " ++ String.intercalate ", " remainingS)),
            conversation_id := some conv_id,
            improved_code := some improved_code,
            awaiting_user_input := some (decide (remainingS.length > 0)),
            suggested_actions :=
              if remainingS.isEmpty then Option.none
              else some ["Fix remaining issues: " ++ String.intercalate ", " remainingS,
                         "Explain remaining issues"] } cm2

/-- `_handle_conversation_continuation`: 404 for an unknown conversation,
store the user message (a `None` message makes the pydantic `Message`
constructor raise), detect intent from keywords, and dispatch to apply /
decline / general-question handling. -/
def handleConversationContinuation (body : ChatRequest) (cm : ConversationManager)
    (orc : Oracles) : ChatOutcome :=
  let conv_id := body.conversation_id.getD ""
  match cm.conversations conv_id with
  | Option.none => .httpNotFound
  | some _ =>
    match body.message with
    | Option.none => .pyError "ValidationError"
    | some user_message =>
      let cm1 := cm.add_message conv_id "user" user_message Option.none orc.now
      let intent : Option Bool × Bool :=
        if !user_message.isEmpty then
          let ml := pyLower user_message
          if pyContains ml "apply" && pyContains ml "improvement" then
            (some true, false)
          else if pyContains ml "fix" && pyContains ml "issue" then
            (some true, false)
          else if pyContains ml "decline" || pyContains ml "no thanks" then
            (body.apply_improvements, true)
          else (body.apply_improvements, false)
        else (body.apply_improvements, false)
      if intent.1.getD false then
        handleApplyImprovements conv_id user_message cm1 orc
      else if intent.2 then
        handleDeclineImprovements conv_id cm1 orc.now
      else
        handleGeneralQuestion conv_id user_message cm1 orc

/-- `_handle_new_analysis`: create a conversation, store the user message,
run the analysis (or the `fast` stub), merge the initial state, store the
assistant message, and shape the response. -/
def handleNewAnalysis (body : ChatRequest) (cm : ConversationManager)
    (orc : Oracles) (fast : Bool) : ChatOutcome :=
  if !optStrTruthy body.get_code then
    .invalidInput "Provide \x27source_code\x27 or \x27code_snippet\x27."
  else
    let code := body.get_code.getD ""
    let conv_id := orc.newConvId
    let cm1 := (cm.create_conversation conv_id orc.now).add_message conv_id
      "user" "Please analyze this code" (some [("source_code", .s code)]) orc.now
    let outcome : Except String (Option String × List Issue) :=
      if fast then .ok (some "OK (fast mode)", [])
      else orc.analyze.map (fun r => (r.summary, r.issues))
    match outcome with
    | .error e => .internalError e
    | .ok (summary, issues) =>
      let cm2 := cm1.update_state conv_id
        { original_code := some code,
          current_code := some code,
          detected_issues := some issues,
          pending_issues := some (truthyTypes issues),
          applied_fixes := some [],
          awaiting_decision := some (decide (issues.length > 0)) } orc.now
      let cm3 := cm2.add_message conv_id "assistant"
        (pyStrOr summary "Analysis complete") (some [("issues", .issues issues)]) orc.now
      let awaiting := decide (issues.length > 0)
      .ok { summary := summary,
            issues := some issues,
            conversation_id := some conv_id,
            awaiting_user_input := some awaiting,
            suggested_actions :=
              if awaiting then
                some ["Apply all improvements", "Fix specific issue types",
                      "Explain issues in detail", "Decline improvements"]
              else Option.none } cm3

/-- `_handle_new_code_in_conversation` (defined in the source but never
called by the routing in `chat`): reset the state via `update_state` with an
all-`None` record except `awaiting_decision=False` — the partial merge makes
this touch only `awaiting_decision` — then run a fresh analysis on a new
request without conversation id (which creates a brand-new conversation) and
overwrite the response conversation id with the old one. -/
def handleNewCodeInConversation (body : ChatRequest) (conv_id : String)
    (cm : ConversationManager) (orc : Oracles) : ChatOutcome :=
  let cm1 := cm.update_state conv_id
    { original_code := Option.none, current_code := Option.none,
      detected_issues := Option.none, pending_issues := Option.none,
      applied_fixes := Option.none, awaiting_decision := some false } orc.now
  let new_request : ChatRequest := { source_code := body.get_code }
  match handleNewAnalysis new_request cm1 orc false with
  | .ok resp cm2 => .ok { resp with conversation_id := some conv_id } cm2
  | other => other

/-- The `chat` endpoint routing: new analysis when code is present and no
conversation id; continuation whenever a conversation id is present (even if
code is also present); otherwise a raised `InvalidInput`. -/
def chat (body : ChatRequest) (fast : Bool) (cm : ConversationManager)
    (orc : Oracles) : ChatOutcome :=
  if optStrTruthy body.get_code && !optStrTruthy body.conversation_id then
    handleNewAnalysis body cm orc fast
  else if optStrTruthy body.conversation_id then
    handleConversationContinuation body cm orc
  else
    .invalidInput "Provide \x27source_code\x27 or \x27conversation_id\x27 with \x27message\x27."

/-- Appending a message keeps the conversation present, appends exactly one
message, and leaves the state untouched. -/
theorem add_message_conversations_same (cm : ConversationManager) (cid : String)
    (role content : String) (metadata : Option Metadata) (t : ℚ)
    (conv : Conversation) (h : cm.conversations cid = some conv) :
    (cm.add_message cid role content metadata t).conversations cid
      = some { conv with
                 messages := conv.messages
                   ++ [{ role := role, content := content,
                         timestamp := t, metadata := metadata }]
                 updated_at := t } := by
  simp [ConversationManager.add_message, h]

/-! ### Fixtures for the `/chat` claims: a store holding one conversation
`"c1"` that has completed an initial analysis (one SECURITY issue pending,
`awaiting_decision = true`), plus concrete collaborator responses. -/

/-- The stored conversation after an initial analysis. -/
def convC1 : Conversation :=
  { conversation_id := "c1", created_at := 0, updated_at := 0,
    messages := [{ role := "user", content := "Please analyze this code",
                   timestamp := 0,
                   metadata := some [("source_code", .s "fun main() {}")] }],
    state := { original_code := some "fun main() {}",
               current_code := some "fun main() {}",
               detected_issues := some [{ type := some "SECURITY",
                                          description := some "Hardcoded credentials",
                                          suggestion := some "Use environment variables" }],
               pending_issues := some ["SECURITY"],
               applied_fixes := some [],
               awaiting_decision := some true } }

/-- A conversation store holding exactly `convC1` under `"c1"`. -/
def cmC1 : ConversationManager :=
  ⟨fun k => if k = "c1" then some convC1 else Option.none⟩

/-- Concrete collaborator responses for the `/chat` claims. -/
def orcEx : Oracles :=
  { analyze := .ok { summary := some "Found issues", issues := [] },
    improve := "improved code",
    bedrockChat := some "ANSWER",
    newConvId := "fresh-uuid",
    now := 7 }

/-! ### Claim theorems for the `/chat` orchestrator -/

/-- C2 (behaviour at the failing input): a request carrying an existing
conversation id *and* code is routed to `_handle_conversation_continuation`,
never to `_handle_new_code_in_conversation`.  Without a message the pydantic
`Message(content=None)` constructor raises; with a message the code is
ignored — the stored state keeps the old `original_code`, no analysis runs
and the response carries no issues. -/
theorem new_code_in_conversation_is_not_restarted :
    (chat { conversation_id := some "c1",
            source_code := some "fun main() \x7b val password = \x22secret\x22 \x7d" }
        false cmC1 orcEx = .pyError "ValidationError") ∧
    ((chat { conversation_id := some "c1",
             source_code := some "fun main() \x7b val password = \x22secret\x22 \x7d",
             message := some "hi" }
        false cmC1 orcEx).cmOf.map
          (fun cm => (cm.conversations "c1").map (fun c => c.state.original_code))
      = some (some (some "fun main() {}"))) ∧
    ((chat { conversation_id := some "c1",
             source_code := some "fun main() \x7b val password = \x22secret\x22 \x7d",
             message := some "hi" }
        false cmC1 orcEx).respOf.map (fun r => r.issues)
      = some Option.none) :=
  ⟨rfl, rfl, rfl⟩

/-- C8 (behaviour at the failing input): a continuation whose message is
present but blank (empty or whitespace-only) is *not* rejected with
`InvalidInput`; it flows into the general-question handler and returns a
200 response. -/
theorem blank_message_continuation_not_rejected :
    ((chat { conversation_id := some "c1", message := some "" }
        false cmC1 orcEx).isInvalidInputB = false) ∧
    ((chat { conversation_id := some "c1", message := some "" }
        false cmC1 orcEx).respOf
      = some { summary := some "ANSWER", conversation_id := some "c1",
               awaiting_user_input := some false }) ∧
    ((chat { conversation_id := some "c1", message := some "   " }
        false cmC1 orcEx).isInvalidInputB = false) :=
  ⟨rfl, rfl, rfl⟩

/-- C3 (counterexample): a continuation with `apply_improvements = false`
and a message with no decline keyword does *not* take the Decline
transition: the response summary is the gateway answer (not the
acknowledgment), the recorded assistant message is that answer, and
`awaiting_decision` stays `true` instead of being set to `false`. -/
theorem apply_false_without_keyword_not_decline :
    ((chat { conversation_id := some "c1", message := some "hmm, tell me more about it",
             apply_improvements := some false }
        false cmC1 orcEx).respOf
      = some { summary := some "ANSWER", conversation_id := some "c1",
               awaiting_user_input := some false }) ∧
    ((chat { conversation_id := some "c1", message := some "hmm, tell me more about it",
             apply_improvements := some false }
        false cmC1 orcEx).cmOf.map
          (fun cm => (cm.conversations "c1").map
            (fun c => (c.state.awaiting_decision, c.messages.map (fun m => m.content))))
      = some (some (some true,
          ["Please analyze this code", "hmm, tell me more about it", "ANSWER"]))) :=
  ⟨rfl, rfl⟩

/-- C3 (amended): a continuation on an existing conversation whose
`apply_improvements` flag is explicitly `false` and whose message contains
none of the intent keywords (apply/improvement, fix/issue, decline,
no thanks) takes the *Explain* transition, not Decline: the gateway answer
is recorded as the assistant message and returned as the summary, the
response has no improved code and `awaiting_user_input = false`, and the
conversation state — `awaiting_decision` included — is left untouched. -/
theorem apply_false_without_keywords_is_explain
    (body : ChatRequest) (cm : ConversationManager) (orc : Oracles)
    (cid : String) (conv : Conversation) (m : String)
    (hcid : body.conversation_id = some cid) (hne : cid ≠ "")
    (hconv : cm.conversations cid = some conv)
    (hmsg : body.message = some m)
    (happly : body.apply_improvements = some false)
    (hk1 : (pyContains (pyLower m) "apply" && pyContains (pyLower m) "improvement")
      = false)
    (hk2 : (pyContains (pyLower m) "fix" && pyContains (pyLower m) "issue") = false)
    (hk3 : (pyContains (pyLower m) "decline" || pyContains (pyLower m) "no thanks")
      = false) :
    chat body false cm orc
      = .ok { summary := some (bedrockAnswer orc), conversation_id := some cid,
              awaiting_user_input := some false }
          ((cm.add_message cid "user" m Option.none orc.now).add_message cid
             "assistant" (bedrockAnswer orc) Option.none orc.now) ∧
    ∃ conv2,
      ((cm.add_message cid "user" m Option.none orc.now).add_message cid
         "assistant" (bedrockAnswer orc) Option.none orc.now).conversations cid
        = some conv2 ∧
      conv2.state = conv.state ∧
      conv2.messages = conv.messages
        ++ [{ role := "user", content := m, timestamp := orc.now },
            { role := "assistant", content := bedrockAnswer orc,
              timestamp := orc.now }] := by
  have htr : optStrTruthy body.conversation_id = true := by
    rw [hcid]
    have : cid.isEmpty = false := by
      by_contra hh
      exact hne ((String.isEmpty_iff cid).mp (Bool.of_not_eq_false hh))
    simp [optStrTruthy, this]
  have hroute : chat body false cm orc = handleConversationContinuation body cm orc := by
    unfold chat
    rw [htr]
    simp
  have huser := add_message_conversations_same cm cid "user" m Option.none orc.now
    conv hconv
  set cm1 := cm.add_message cid "user" m Option.none orc.now with hcm1
  set conv1 : Conversation :=
    { conv with
        messages := conv.messages
          ++ [{ role := "user", content := m, timestamp := orc.now,
                metadata := Option.none }]
        updated_at := orc.now } with hconv1
  have hintent :
      (if !m.isEmpty then
          let ml := pyLower m
          if pyContains ml "apply" && pyContains ml "improvement" then
            ((some true : Option Bool), false)
          else if pyContains ml "fix" && pyContains ml "issue" then
            (some true, false)
          else if pyContains ml "decline" || pyContains ml "no thanks" then
            (body.apply_improvements, true)
          else (body.apply_improvements, false)
        else (body.apply_improvements, false)) = (some false, false) := by
    by_cases hm : m.isEmpty <;>
      simp [hm, hk1, hk2, hk3, happly]
  have hcont : handleConversationContinuation body cm orc
      = handleGeneralQuestion cid m cm1 orc := by
    unfold handleConversationContinuation
    rw [hcid]
    simp only [Option.getD_some, hconv, hmsg]
    rw [hintent]
    simp
  have hconv1mem : cm1.conversations cid = some conv1 := huser
  have hgen : handleGeneralQuestion cid m cm1 orc
      = .ok { summary := some (bedrockAnswer orc), conversation_id := some cid,
              awaiting_user_input := some false }
          (cm1.add_message cid "assistant" (bedrockAnswer orc) Option.none orc.now) := by
    unfold handleGeneralQuestion
    rw [hconv1mem]
  have hasst := add_message_conversations_same cm1 cid "assistant" (bedrockAnswer orc)
    Option.none orc.now conv1 hconv1mem
  refine ⟨by rw [hroute, hcont, hgen], ?_⟩
  refine ⟨_, hasst, rfl, ?_⟩
  simp [hconv1]

/-- Witness for the amended C3: the concrete continuation
`{conversation_id: "c1", message: "tell me more", apply_improvements: false}`
takes the Explain transition. -/
theorem apply_false_without_keywords_is_explain_witness :
    chat { conversation_id := some "c1", message := some "tell me more",
           apply_improvements := some false } false cmC1 orcEx
      = .ok { summary := some (bedrockAnswer orcEx), conversation_id := some "c1",
              awaiting_user_input := some false }
          ((cmC1.add_message "c1" "user" "tell me more" Option.none orcEx.now).add_message
             "c1" "assistant" (bedrockAnswer orcEx) Option.none orcEx.now) ∧
    ∃ conv2,
      ((cmC1.add_message "c1" "user" "tell me more" Option.none orcEx.now).add_message
         "c1" "assistant" (bedrockAnswer orcEx) Option.none orcEx.now).conversations "c1"
        = some conv2 ∧
      conv2.state = convC1.state ∧
      conv2.messages = convC1.messages
        ++ [{ role := "user", content := "tell me more", timestamp := orcEx.now },
            { role := "assistant", content := bedrockAnswer orcEx,
              timestamp := orcEx.now }] :=
  apply_false_without_keywords_is_explain
    { conversation_id := some "c1", message := some "tell me more",
      apply_improvements := some false } cmC1 orcEx "c1" convC1 "tell me more"
    rfl (by decide) rfl rfl rfl (by decide) (by decide) (by decide)
